import Mathlib

/-!
Verification of `scripts/fetch_news.py`: a script that fetches a BBC RSS
feed, renders up to `num_items` feed items as HTML `<li>` strings, and
substitutes a news block and a timestamp into `index.html`.

Text is modelled as `List Char` (Python strings are sequences of code
points).  The network layer and the XML parser are modelled by an
environment value describing their outcome; the parsed document is
modelled by the document-ordered list of its `.//item` elements, each
item carrying its optional `title`, `link` and `description` child
elements, each child carrying its optional text.
-/

namespace FetchNews

/-- Python strings are sequences of unicode code points. -/
abbrev Str := List Char

/-- An XML child element as seen by the script: only its `.text` matters.
`ElementTree` gives `text = None` for an element with no text node. -/
structure XmlElem where
  text : Option Str
deriving DecidableEq

/-- One `<item>` element of the feed: the results of `item.find('title')`,
`item.find('link')` and `item.find('description')` (first matching child
or `None`). -/
structure RssItem where
  title : Option XmlElem
  link : Option XmlElem
  descr : Option XmlElem
deriving DecidableEq

/-- Python's `x or default` on an optional string: `None` and the empty
string are falsy, any other string is returned unchanged.  Models
`title_elem.text or '無標題'` and `link_elem.text or '#'` (lines 42-43). -/
def pyOr (t : Option Str) (d : Str) : Str :=
  match t with
  | some s => if s = [] then d else s
  | none => d

/-- One step group of the regex scan for `re.sub(r'<[^>]+>', '', desc)`:
after an opening `<`, the greedy `[^>]+` takes the maximal nonempty run of
non-`>` characters, which must be followed by a literal `>`.  `stripF` is
the whole left-to-right scan, driven by a fuel argument that drops by one
while each step consumes at least one character, so `fuel = s.length`
always suffices. -/
def tagEnd (s : Str) : Option Str :=
  let run := s.takeWhile (fun d => !(d == ('>')))
  if run = [] then none
  else
    match s.drop run.length with
    | ('>') :: rest2 => some rest2
    | _ => none

/-- The left-to-right scan of `re.sub(r'<[^>]+>', '', desc)`, driven by a
fuel argument: the fuel drops by one while each step consumes at least
one character, so `fuel = s.length` always suffices. -/
def stripF : Nat → Str → Str
  | 0, s => s
  | _ + 1, [] => []
  | f + 1, c :: rest =>
    if c = ('<') then
      match tagEnd rest with
      | some rest2 => stripF f rest2
      | none => c :: stripF f rest
    else c :: stripF f rest

/-- `re.sub(r'<[^>]+>', '', s)` (line 47): delete every non-overlapping
leftmost match of `<[^>]+>`. -/
def stripTags (s : Str) : Str := stripF s.length s

/-- The description text computed on line 44:
`desc_elem.text[:100] + '...' if desc_elem is not None and desc_elem.text
else '無描述'`.  Note that the ellipsis is appended whenever the text is
truthy, regardless of its length. -/
def descText (descr : Option XmlElem) : Str :=
  match descr with
  | some de =>
    match de.text with
    | some tx => if tx = [] then ("無描述").data else tx.take 100 ++ ("...").data
    | none => ("無描述").data
  | none => ("無描述").data

/-- The f-string on line 50:
`f'<li><a href="{link}" target="_blank">{title}</a>: {desc}</li>'`. -/
def renderItemHtml (title link desc : Str) : Str :=
  ("<li><a href=\"").data ++ link ++ ("\" target=\"_blank\">").data ++
    title ++ ("</a>: ").data ++ desc ++ ("</li>").data

/-- The body of the `for item in ...` loop (lines 37-51): `none` when the
item is skipped because `title` or `link` is absent, otherwise the
rendered `<li>` string.  Tag-stripping is applied to the description after
truncation and after the placeholder substitution, exactly as in the
source (line 47 runs after line 44). -/
def processItem (it : RssItem) : Option Str :=
  match it.title, it.link with
  | some te, some le =>
    some (renderItemHtml (pyOr te.text (("無標題").data)) (pyOr le.text (("#").data))
      (stripTags (descText it.descr)))
  | some _, none => none
  | none, _ => none

/-- Outcome of the network request and XML parse seen by
`fetch_bbc_news`:
 * `timeout` / `connectionError`: `requests.get` raises a
   `requests.exceptions.RequestException` subclass;
 * `otherException`: any other exception during processing, absorbed by
   the final `except Exception` handler;
 * `response code body`: an HTTP response arrived with status `code`;
   `body = none` means its content is not well-formed XML
   (`ET.fromstring` raises `ParseError`), `body = some items` means it
   parsed and `root.findall('.//item')` yields `items` in document
   order. -/
inductive FetchEnv where
  | timeout : FetchEnv
  | connectionError : FetchEnv
  | otherException : FetchEnv
  | response (statusCode : Nat) (body : Option (List RssItem)) : FetchEnv

/-- `fetch_bbc_news(num_items)` (lines 16-63).  `raise_for_status` raises
`requests.exceptions.HTTPError` (a `RequestException`) exactly for status
codes in 400..599; every handler returns the empty list.  On success the
loop runs over `root.findall('.//item')[:num_items]` and appends the
rendered string of every item that has both `title` and `link`. -/
def fetch_bbc_news (numItems : Nat) (env : FetchEnv) : List Str :=
  match env with
  | .timeout => []
  | .connectionError => []
  | .otherException => []
  | .response code body =>
    if 400 ≤ code ∧ code < 600 then []
    else
      match body with
      | none => []
      | some items => (items.take numItems).filterMap processItem

/-- The moment returned by `datetime.now()`. -/
structure PyDateTime where
  year : Nat
  month : Nat
  day : Nat
  hour : Nat
  minute : Nat
  second : Nat
deriving DecidableEq

/-- Decimal digits of `n`, zero-padded on the left to width `w`, as
`strftime` does for `%Y` (w = 4) and `%m %d %H %M %S` (w = 2). -/
def pad (w n : Nat) : Str :=
  List.replicate (w - (Nat.repr n).data.length) ('0') ++ (Nat.repr n).data

/-- `datetime.now().strftime('%Y-%m-%d %H:%M:%S (台灣時間)')`
(lines 81 and 84): both branches of the `if` use this same format. -/
def formatUpdateTime (t : PyDateTime) : Str :=
  pad 4 t.year ++ ("-").data ++ pad 2 t.month ++ ("-").data ++ pad 2 t.day ++
    (" ").data ++ pad 2 t.hour ++ (":").data ++ pad 2 t.minute ++ (":").data ++
    pad 2 t.second ++ (" (台灣時間)").data

/-- The news-container marker replaced on line 88. -/
def newsMarker : Str := ("<div id=\"news\"></div>").data

/-- The timestamp-comment marker replaced on line 90. -/
def timeMarker : Str := ("<!-- 腳本會插入時間 -->").data

/-- Lines 79-84: the pair `(news_html, update_time)`.  Python's
`if news_items:` is truthiness, i.e. the list is nonempty. -/
def newsBlock (newsItems : List Str) (now : PyDateTime) : Str × Str :=
  if newsItems ≠ [] then
    (("<ul>").data ++ newsItems.flatten ++ ("</ul>").data, formatUpdateTime now)
  else
    (("<p>無法載入新聞，請稍後再試。</p>").data, formatUpdateTime now)

/-- The string substituted for the news marker (line 88):
`f'<div id="news">{news_html}</div>'`. -/
def newsReplacement (newsItems : List Str) (now : PyDateTime) : Str :=
  ("<div id=\"news\">").data ++ (newsBlock newsItems now).1 ++ ("</div>").data

/-- Python `s.replace(old, new)` for a nonempty `old`: scan left to
right, replacing every non-overlapping occurrence, resuming after each
replacement.  Fuel drops by one per step while at least one character of
the haystack is consumed, so `fuel = s.length` suffices.  (Both markers
used by the script are nonempty, so the `old = []` behaviour is never
exercised.) -/
def replaceF (old new : Str) : Nat → Str → Str
  | 0, s => s
  | _ + 1, [] => []
  | f + 1, c :: rest =>
    if old.isPrefixOf (c :: rest) then
      new ++ replaceF old new f (rest.drop (old.length - 1))
    else
      c :: replaceF old new f rest

/-- Python `s.replace(old, new)` (lines 88 and 90), for nonempty `old`. -/
def pyReplace (s old new : Str) : Str := replaceF old new s.length s

/-- `pat` occurs as a contiguous substring of `s` (Python `pat in s`). -/
def occursIn (pat : Str) : Str → Bool
  | [] => pat.isPrefixOf []
  | c :: rest => pat.isPrefixOf (c :: rest) || occursIn pat rest

/-- `update_index_html(news_items)` (lines 65-101).  The file system is
modelled by `file`: `none` means `open('index.html')` raises
`FileNotFoundError`, in which case the handler prints a message and no
write happens (`none` returned); `some content` is the file's current
text, and the returned `some text` is what is written back. -/
def update_index_html (newsItems : List Str) (now : PyDateTime)
    (file : Option Str) : Option Str :=
  match file with
  | none => none
  | some content =>
    let nb := newsBlock newsItems now
    let c1 := pyReplace content newsMarker
      (("<div id=\"news\">").data ++ nb.1 ++ ("</div>").data)
    let c2 := pyReplace c1 timeMarker nb.2
    some c2

/-- The `__main__` block (lines 103-108): fetch five items, then update
the file. -/
def mainRun (env : FetchEnv) (now : PyDateTime) (file : Option Str) :
    Option Str :=
  update_index_html (fetch_bbc_news 5 env) now file

/-! ### Concrete sample data used by witnesses and counterexamples -/

/-- A feed item whose description text is the three characters `abc`. -/
def c1Item : RssItem :=
  ⟨some ⟨some (("T").data)⟩, some ⟨some (("L").data)⟩, some ⟨some (("abc").data)⟩⟩

/-- A target file holding both markers, each once, between text chunks. -/
def c2File : Str :=
  ("HEAD").data ++ newsMarker ++ ("MID").data ++ timeMarker ++ ("TAIL").data

/-- A rendered item of the first run. -/
def c2ItemA : Str := ("<li>AAA</li>").data

/-- A rendered item of the second run. -/
def c2ItemB : Str := ("<li>BBB</li>").data

/-- A sample moment for the first run. -/
def c2Time1 : PyDateTime := ⟨2026, 1, 2, 3, 4, 5⟩

/-- A sample moment for the second run. -/
def c2Time2 : PyDateTime := ⟨2026, 6, 7, 8, 9, 10⟩

/-- The file produced by the first run on `c2File`: both markers
substituted. -/
def c2Result : Str :=
  ("HEAD<div id=\"news\"><ul><li>AAA</li></ul></div>MID2026-01-02 03:04:05 (台灣時間)TAIL").data

/-- Three feed items, each with both `title` and `link`. -/
def c3Items : List RssItem :=
  [⟨some ⟨some (("T1").data)⟩, some ⟨some (("L1").data)⟩, none⟩,
   ⟨some ⟨some (("T2").data)⟩, some ⟨some (("L2").data)⟩, none⟩,
   ⟨some ⟨some (("T3").data)⟩, some ⟨some (("L3").data)⟩, none⟩]

/-- An item whose `title`, `link` and `description` elements are present
but have no (or empty) text. -/
def c10Item : RssItem := ⟨some ⟨none⟩, some ⟨some []⟩, some ⟨none⟩⟩

/-! ### Helper lemmas about `replaceF`, `occursIn` and `newsBlock` -/

lemma isPrefixOf_append_self : ∀ xs ys : Str, xs.isPrefixOf (xs ++ ys) = true := by
  intro xs ys
  induction xs with
  | nil => simp [List.isPrefixOf]
  | cons x xs ih => simp [List.isPrefixOf, ih]

lemma drop_len_append : ∀ xs ys : Str, (xs ++ ys).drop xs.length = ys := by
  intro xs ys
  induction xs with
  | nil => rfl
  | cons x xs ih => simp [ih]

lemma replaceF_nil (old new : Str) (f : Nat) : replaceF old new f [] = [] := by
  cases f <;> rfl

/-- A pattern that occurs nowhere is never replaced, whatever the fuel. -/
lemma replaceF_of_not_occurs (old new : Str) :
    ∀ (f : Nat) (s : Str), occursIn old s = false → replaceF old new f s = s := by
  intro f
  induction f with
  | zero => intro s _; rfl
  | succ f ih =>
    intro s h
    cases s with
    | nil => rfl
    | cons c rest =>
      rw [occursIn, Bool.or_eq_false_iff] at h
      simp [replaceF, h.1, ih rest h.2]

/-- The replacement scan walks over a prefix `a` in which no occurrence of
`old` starts, consumes the occurrence of `old` that follows it, and
resumes on `rest`. -/
lemma replaceF_append (old new : Str) (ho : old ≠ []) :
    ∀ (a : Str) (rest : Str) (f : Nat), (a ++ (old ++ rest)).length ≤ f →
    (∀ i, i < a.length → old.isPrefixOf ((a ++ (old ++ rest)).drop i) = false) →
    replaceF old new f (a ++ (old ++ rest)) =
      a ++ new ++ replaceF old new (f - (a.length + 1)) rest := by
  intro a
  induction a with
  | nil =>
    intro rest f hf _
    obtain ⟨o, os, rfl⟩ : ∃ o os, old = o :: os := by
      cases old with
      | nil => exact absurd rfl ho
      | cons o os => exact ⟨o, os, rfl⟩
    obtain ⟨f', rfl⟩ : ∃ f', f = f' + 1 := by
      refine ⟨f - 1, ?_⟩
      simp [List.length_append] at hf
      omega
    show replaceF (o :: os) new (f' + 1) (o :: (os ++ rest)) = _
    rw [replaceF]
    have hp : (o :: os).isPrefixOf (o :: (os ++ rest)) = true :=
      isPrefixOf_append_self (o :: os) rest
    simp only [hp, if_true]
    simp [drop_len_append]
  | cons x a ih =>
    intro rest f hf h
    obtain ⟨f', rfl⟩ : ∃ f', f = f' + 1 := by
      refine ⟨f - 1, ?_⟩
      simp [List.length_append] at hf
      omega
    have h0 : old.isPrefixOf (x :: (a ++ (old ++ rest))) = false := by
      have := h 0 (by simp)
      simpa using this
    show replaceF old new (f' + 1) (x :: (a ++ (old ++ rest))) = _
    rw [replaceF]
    simp only [h0, if_false]
    have hlen : (a ++ (old ++ rest)).length ≤ f' := by
      simp [List.length_append] at hf ⊢
      omega
    have hsh : ∀ i, i < a.length →
        old.isPrefixOf ((a ++ (old ++ rest)).drop i) = false := by
      intro i hi
      have := h (i + 1) (by simp; omega)
      simpa [List.drop_succ_cons] using this
    rw [ih rest f' hlen hsh]
    have harith : f' - (a.length + 1) = f' + 1 - ((x :: a).length + 1) := by
      simp only [List.length_cons]
      omega
    rw [harith]
    simp

/-- A single occurrence, flanked by occurrence-free context, is replaced
and nothing else changes. -/
lemma pyReplace_single (old new a rest : Str) (ho : old ≠ [])
    (h1 : ∀ i, i < a.length →
      old.isPrefixOf ((a ++ (old ++ rest)).drop i) = false)
    (h2 : occursIn old rest = false) :
    pyReplace (a ++ (old ++ rest)) old new = a ++ new ++ rest := by
  rw [pyReplace, replaceF_append old new ho a rest _ (Nat.le_refl _) h1,
    replaceF_of_not_occurs old new _ rest h2]

/-- A pattern that occurs nowhere is never replaced. -/
lemma pyReplace_none (s old new : Str) (h : occursIn old s = false) :
    pyReplace s old new = s :=
  replaceF_of_not_occurs old new s.length s h

/-- Two occurrences, flanked by occurrence-free context, are both
replaced: the mechanism is global, not first-occurrence-only. -/
lemma pyReplace_double (old new a b c : Str) (ho : old ≠ [])
    (h1 : ∀ i, i < a.length →
      old.isPrefixOf ((a ++ (old ++ (b ++ (old ++ c)))).drop i) = false)
    (h2 : ∀ i, i < b.length →
      old.isPrefixOf ((b ++ (old ++ c)).drop i) = false)
    (h3 : occursIn old c = false) :
    pyReplace (a ++ (old ++ (b ++ (old ++ c)))) old new =
      a ++ new ++ (b ++ (new ++ c)) := by
  have hol : 1 ≤ old.length := by
    cases old with
    | nil => exact absurd rfl ho
    | cons o os => simp
  rw [pyReplace, replaceF_append old new ho a (b ++ (old ++ c)) _ (Nat.le_refl _) h1]
  have hlen : (b ++ (old ++ c)).length ≤
      (a ++ (old ++ (b ++ (old ++ c)))).length - (a.length + 1) := by
    simp [List.length_append]
    omega
  rw [replaceF_append old new ho b c _ hlen h2,
    replaceF_of_not_occurs old new _ c h3]
  simp

/-- Both branches of lines 79-84 compute `update_time` with the same
`strftime` call. -/
lemma newsBlock_snd (newsItems : List Str) (now : PyDateTime) :
    (newsBlock newsItems now).2 = formatUpdateTime now := by
  rw [newsBlock]
  split <;> rfl

/-- `update_index_html` on an existing file is the two successive
substitutions. -/
lemma update_some (newsItems : List Str) (now : PyDateTime) (content : Str) :
    update_index_html newsItems now (some content) =
      some (pyReplace (pyReplace content newsMarker
        (newsReplacement newsItems now)) timeMarker (formatUpdateTime now)) := by
  simp only [update_index_html, newsReplacement]
  rw [newsBlock_snd]

/-- `filterMap` over a list on which `f` is everywhere defined pairs each
element with its image, in order. -/
lemma filterMap_forall2 {α β : Type} (f : α → Option β) :
    ∀ l : List α, (∀ x ∈ l, (f x).isSome = true) →
    List.Forall₂ (fun a b => f a = some b) l (l.filterMap f) := by
  intro l
  induction l with
  | nil => intro _; simp
  | cons x xs ih =>
    intro h
    obtain ⟨r, hr⟩ := Option.isSome_iff_exists.mp (h x (List.mem_cons_self x xs))
    rw [List.filterMap_cons, hr]
    exact List.Forall₂.cons hr (ih fun y hy => h y (List.mem_cons_of_mem x hy))

/-! ### Claims -/

/-- C1, counterexample.  The claim says a non-empty description of at
most 100 characters is passed through unchanged except for
tag-stripping; on the item `c1Item` whose description text is the
3-character, tag-free string `abc`, the rendered description would then
be `abc`, but line 44 appends the ellipsis unconditionally, so the code
renders `abc...`. -/
theorem claim_C1_counterexample :
    processItem c1Item ≠
      some (renderItemHtml (("T").data) (("L").data) (("abc").data)) ∧
    processItem c1Item =
      some (renderItemHtml (("T").data) (("L").data) (("abc...").data)) := by
  decide

/-- C1, amended.  For every feed item whose description element is
present with non-empty text, the rendered description is the
tag-stripping pass applied to the first `min(length, 100)` characters of
the text followed by the ellipsis marker: the ellipsis is appended
regardless of the text's length, and tag-stripping runs after truncation
and after the ellipsis is appended. -/
theorem claim_C1 (it : RssItem) (te le de : XmlElem) (tx : Str)
    (hte : it.title = some te) (hle : it.link = some le)
    (hde : it.descr = some de) (htx : de.text = some tx) (hne : tx ≠ []) :
    processItem it =
      some (renderItemHtml (pyOr te.text (("無標題").data))
        (pyOr le.text (("#").data))
        (stripTags (tx.take 100 ++ ("...").data))) := by
  simp [processItem, hte, hle, descText, hde, htx, hne]

/-- C1, witness: the amended claim evaluated on `c1Item`. -/
theorem claim_C1_witness :
    processItem c1Item =
      some (renderItemHtml (pyOr (some (("T").data)) (("無標題").data))
        (pyOr (some (("L").data)) (("#").data))
        (stripTags ((("abc").data).take 100 ++ ("...").data))) :=
  claim_C1 c1Item ⟨some (("T").data)⟩ ⟨some (("L").data)⟩
    ⟨some (("abc").data)⟩ (("abc").data) rfl rfl rfl rfl (by decide)

/-- C2, counterexample.  The claim says that on a file containing both
markers, a second `update()` run with a different item sequence leaves
the news region containing exactly the items of the second sequence.
`c2File` contains both markers (first two conjuncts); running `update()`
with `[c2ItemA]` and then with `[c2ItemB]` leaves the file equal to
`c2Result`: the first run consumed both markers, so the second run
changed nothing — `c2ItemA` is still present and `c2ItemB` appears
nowhere. -/
theorem claim_C2_counterexample :
    occursIn newsMarker c2File = true ∧
    occursIn timeMarker c2File = true ∧
    update_index_html [c2ItemB] c2Time2
        (update_index_html [c2ItemA] c2Time1 (some c2File)) = some c2Result ∧
    occursIn c2ItemA c2Result = true ∧
    occursIn c2ItemB c2Result = false := by
  decide

/-- C2, amended.  For a target file containing both markers — the news
marker once and the timestamp marker once, in the decomposition shown,
with the first run's substituted text reintroducing neither marker —
running `update()` with item sequence `A` and then again with item
sequence `B` leaves the file exactly as the first run left it: the news
region contains exactly the items of `A` and the first run's timestamp.
Nothing accumulates, but nothing of `B` appears either, because the
first run consumed both markers and the second run's substitutions find
no marker. -/
theorem claim_C2 (A B : List Str) (now1 now2 : PyDateTime) (a b c : Str)
    (h1 : ∀ i, i < a.length → newsMarker.isPrefixOf
      ((a ++ (newsMarker ++ (b ++ (timeMarker ++ c)))).drop i) = false)
    (h2 : occursIn newsMarker (b ++ (timeMarker ++ c)) = false)
    (h3 : ∀ i, i < (a ++ newsReplacement A now1 ++ b).length →
      timeMarker.isPrefixOf
        (((a ++ newsReplacement A now1 ++ b) ++ (timeMarker ++ c)).drop i) = false)
    (h4 : occursIn timeMarker c = false)
    (h5 : occursIn newsMarker
      ((a ++ newsReplacement A now1 ++ b) ++ formatUpdateTime now1 ++ c) = false)
    (h6 : occursIn timeMarker
      ((a ++ newsReplacement A now1 ++ b) ++ formatUpdateTime now1 ++ c) = false) :
    update_index_html B now2
        (update_index_html A now1
          (some (a ++ (newsMarker ++ (b ++ (timeMarker ++ c)))))) =
      some ((a ++ newsReplacement A now1 ++ b) ++ formatUpdateTime now1 ++ c) := by
  have hm : newsMarker ≠ ([] : Str) := by decide
  have ht : timeMarker ≠ ([] : Str) := by decide
  have first : update_index_html A now1
      (some (a ++ (newsMarker ++ (b ++ (timeMarker ++ c))))) =
      some ((a ++ newsReplacement A now1 ++ b) ++ formatUpdateTime now1 ++ c) := by
    rw [update_some,
      pyReplace_single newsMarker (newsReplacement A now1) a
        (b ++ (timeMarker ++ c)) hm h1 h2]
    have hassoc : a ++ newsReplacement A now1 ++ (b ++ (timeMarker ++ c)) =
        (a ++ newsReplacement A now1 ++ b) ++ (timeMarker ++ c) := by
      simp [List.append_assoc]
    rw [hassoc,
      pyReplace_single timeMarker (formatUpdateTime now1)
        (a ++ newsReplacement A now1 ++ b) c ht h3 h4]
  rw [first, update_some, pyReplace_none _ _ _ h5, pyReplace_none _ _ _ h6]

/-- C2, witness: the amended claim evaluated on the pieces of a
both-marker file. -/
theorem claim_C2_witness :
    update_index_html [c2ItemB] c2Time2
        (update_index_html [c2ItemA] c2Time1
          (some ((("HEAD").data) ++ (newsMarker ++ ((("MID").data) ++
            (timeMarker ++ (("TAIL").data))))))) =
      some (((("HEAD").data) ++ newsReplacement [c2ItemA] c2Time1 ++ (("MID").data)) ++
        formatUpdateTime c2Time1 ++ (("TAIL").data)) :=
  claim_C2 [c2ItemA] [c2ItemB] c2Time1 c2Time2
    (("HEAD").data) (("MID").data) (("TAIL").data)
    (by decide) (by decide) (by decide) (by decide) (by decide) (by decide)

/-- C3.  For every well-formed feed XML whose `K ≥ 0` items each have
both a `title` and a `link` child element, and every requested count
`N`, the Fetcher returns exactly `min(K, N)` rendered items, each
rendered from the corresponding one of the first `min(K, N)` feed items,
in document order. -/
theorem claim_C3 (n : Nat) (items : List RssItem)
    (h : ∀ it ∈ items, it.title.isSome = true ∧ it.link.isSome = true) :
    (fetch_bbc_news n (.response 200 (some items))).length = min items.length n ∧
    List.Forall₂ (fun it s => processItem it = some s) (items.take n)
      (fetch_bbc_news n (.response 200 (some items))) := by
  have hfetch : fetch_bbc_news n (.response 200 (some items)) =
      (items.take n).filterMap processItem := by
    simp [fetch_bbc_news]
  have hall : ∀ it ∈ items.take n, (processItem it).isSome = true := by
    intro it hit
    obtain ⟨h1, h2⟩ := h it (List.take_subset n items hit)
    obtain ⟨te, hte⟩ := Option.isSome_iff_exists.mp h1
    obtain ⟨le, hle⟩ := Option.isSome_iff_exists.mp h2
    simp [processItem, hte, hle]
  have h2 := filterMap_forall2 processItem (items.take n) hall
  constructor
  · rw [hfetch, ← h2.length_eq, List.length_take, Nat.min_comm]
  · rw [hfetch]
    exact h2

/-- C3, witness: three valid items, two requested. -/
theorem claim_C3_witness :
    (fetch_bbc_news 2 (.response 200 (some c3Items))).length =
      min c3Items.length 2 ∧
    List.Forall₂ (fun it s => processItem it = some s) (c3Items.take 2)
      (fetch_bbc_news 2 (.response 200 (some c3Items))) :=
  claim_C3 2 c3Items (by decide)

/-- C4.  An item whose `title` element or `link` element is entirely
absent is skipped by the loop body (it contributes nothing to the
output); an item with both present but no `description` element is
rendered with the fixed placeholder description text. -/
theorem claim_C4 (it : RssItem) :
    ((it.title = none ∨ it.link = none) → processItem it = none) ∧
    (∀ te le, it.title = some te → it.link = some le → it.descr = none →
      processItem it =
        some (renderItemHtml (pyOr te.text (("無標題").data))
          (pyOr le.text (("#").data)) (("無描述").data))) := by
  constructor
  · rintro (h | h)
    · simp [processItem, h]
    · cases htitle : it.title with
      | none => simp [processItem, htitle]
      | some te => simp [processItem, htitle, h]
  · intro te le hte hle hd
    have hstrip : stripTags (("無描述").data) = ("無描述").data := by decide
    simp [processItem, hte, hle, descText, hd, hstrip]

/-- C4, witness: an item with no `title` is dropped; an item with
`title` and `link` but no `description` is rendered with the
placeholder. -/
theorem claim_C4_witness :
    processItem ⟨none, some ⟨some (("L").data)⟩, none⟩ = none ∧
    processItem ⟨some ⟨some (("T").data)⟩, some ⟨some (("L").data)⟩, none⟩ =
      some (renderItemHtml (pyOr (some (("T").data)) (("無標題").data))
        (pyOr (some (("L").data)) (("#").data)) (("無描述").data)) :=
  ⟨(claim_C4 ⟨none, some ⟨some (("L").data)⟩, none⟩).1 (Or.inl rfl),
   (claim_C4 ⟨some ⟨some (("T").data)⟩, some ⟨some (("L").data)⟩, none⟩).2
     ⟨some (("T").data)⟩ ⟨some (("L").data)⟩ rfl rfl rfl⟩

/-- C5.  Every network-layer failure (timeout, connection error, a
4xx/5xx status raised by `raise_for_status`), every malformed-XML body,
and the catch-all for any other exception all make the Fetcher return
the empty list; no exception escapes, since every branch of the model
returns a value. -/
theorem claim_C5 (n : Nat) :
    fetch_bbc_news n .timeout = [] ∧
    fetch_bbc_news n .connectionError = [] ∧
    fetch_bbc_news n .otherException = [] ∧
    (∀ code body, 400 ≤ code → code < 600 →
      fetch_bbc_news n (.response code body) = []) ∧
    (∀ code, fetch_bbc_news n (.response code none) = []) := by
  refine ⟨rfl, rfl, rfl, ?_, ?_⟩
  · intro code body hlo hhi
    simp [fetch_bbc_news, hlo, hhi]
  · intro code
    by_cases h : 400 ≤ code ∧ code < 600 <;> simp [fetch_bbc_news, h]

/-- C5, witness: a 500 status with a parseable body, and a 200 status
with a malformed body, both yield the empty list. -/
theorem claim_C5_witness :
    fetch_bbc_news 5 (.response 500 (some c3Items)) = [] ∧
    fetch_bbc_news 5 (.response 200 none) = [] :=
  ⟨(claim_C5 5).2.2.2.1 500 (some c3Items) (by decide) (by decide),
   (claim_C5 5).2.2.2.2 200⟩

/-- C6.  On a target file containing both markers (each occurring once,
at the decomposition shown), running `update()` with an empty item
sequence puts the fixed fallback message inside the news container and
substitutes the freshly computed timestamp for the timestamp marker;
moreover `update_time` is computed by the same expression whether or not
the item list is empty, so it never depends on that branch. -/
theorem claim_C6 (now : PyDateTime) (a b c : Str)
    (h1 : ∀ i, i < a.length → newsMarker.isPrefixOf
      ((a ++ (newsMarker ++ (b ++ (timeMarker ++ c)))).drop i) = false)
    (h2 : occursIn newsMarker (b ++ (timeMarker ++ c)) = false)
    (h3 : ∀ i, i < (a ++ newsReplacement [] now ++ b).length →
      timeMarker.isPrefixOf
        (((a ++ newsReplacement [] now ++ b) ++ (timeMarker ++ c)).drop i) = false)
    (h4 : occursIn timeMarker c = false) :
    update_index_html [] now
        (some (a ++ (newsMarker ++ (b ++ (timeMarker ++ c))))) =
      some (a ++
        (("<div id=\"news\"><p>無法載入新聞，請稍後再試。</p></div>").data) ++
        (b ++ (formatUpdateTime now ++ c))) ∧
    ∀ newsItems : List Str, (newsBlock newsItems now).2 = (newsBlock [] now).2 := by
  have hm : newsMarker ≠ ([] : Str) := by decide
  have ht : timeMarker ≠ ([] : Str) := by decide
  constructor
  · rw [update_some,
      pyReplace_single newsMarker (newsReplacement [] now) a
        (b ++ (timeMarker ++ c)) hm h1 h2]
    have hassoc : a ++ newsReplacement [] now ++ (b ++ (timeMarker ++ c)) =
        (a ++ newsReplacement [] now ++ b) ++ (timeMarker ++ c) := by
      simp [List.append_assoc]
    rw [hassoc,
      pyReplace_single timeMarker (formatUpdateTime now)
        (a ++ newsReplacement [] now ++ b) c ht h3 h4]
    have hrepl : newsReplacement [] now =
        ("<div id=\"news\"><p>無法載入新聞，請稍後再試。</p></div>").data := by
      simp [newsReplacement, newsBlock]
    rw [hrepl]
    simp [List.append_assoc]
  · intro newsItems
    rw [newsBlock_snd, newsBlock_snd]

/-- C6, witness: a concrete file `A…B…C` around the two markers. -/
theorem claim_C6_witness :
    update_index_html [] c2Time1
        (some ((("A").data) ++ (newsMarker ++ ((("B").data) ++
          (timeMarker ++ (("C").data)))))) =
      some ((("A").data) ++
        (("<div id=\"news\"><p>無法載入新聞，請稍後再試。</p></div>").data) ++
        ((("B").data) ++ (formatUpdateTime c2Time1 ++ (("C").data)))) ∧
    ∀ newsItems : List Str,
      (newsBlock newsItems c2Time1).2 = (newsBlock [] c2Time1).2 :=
  claim_C6 c2Time1 (("A").data) (("B").data) (("C").data)
    (by decide) (by decide) (by decide) (by decide)

/-- C7.  On a target file without the news marker, `update()` leaves the
news portion unchanged while still performing the timestamp
substitution; and if the timestamp marker is also absent, the file is
returned completely unchanged — each absent marker makes its own
substitution a no-op, independently of the other. -/
theorem claim_C7 (newsItems : List Str) (now : PyDateTime) (content : Str) :
    (occursIn newsMarker content = false →
      update_index_html newsItems now (some content) =
        some (pyReplace content timeMarker (formatUpdateTime now))) ∧
    (occursIn newsMarker content = false →
      occursIn timeMarker content = false →
      update_index_html newsItems now (some content) = some content) := by
  constructor
  · intro h
    rw [update_some, pyReplace_none _ _ _ h]
  · intro h h'
    rw [update_some, pyReplace_none _ _ _ h, pyReplace_none _ _ _ h']

/-- C7, witness: a file with only the timestamp marker gets only the
timestamp substituted; a file with neither marker is unchanged. -/
theorem claim_C7_witness :
    update_index_html [c2ItemA] c2Time1
        (some ((("P").data) ++ timeMarker ++ (("Q").data))) =
      some (pyReplace ((("P").data) ++ timeMarker ++ (("Q").data))
        timeMarker (formatUpdateTime c2Time1)) ∧
    update_index_html [c2ItemA] c2Time1 (some (("PLAIN").data)) =
      some (("PLAIN").data) :=
  ⟨(claim_C7 [c2ItemA] c2Time1
      ((("P").data) ++ timeMarker ++ (("Q").data))).1 (by decide),
   (claim_C7 [c2ItemA] c2Time1 (("PLAIN").data)).2 (by decide) (by decide)⟩

/-- C8.  `str.replace` is an exact-literal global substitution: when a
marker occurs twice (with no further occurrences in the surrounding
pieces), `update()` replaces both occurrences — of the news marker in
the first conjunct and of the timestamp marker in the second. -/
theorem claim_C8 (newsItems : List Str) (now : PyDateTime) :
    (∀ a b c : Str,
      (∀ i, i < a.length → newsMarker.isPrefixOf
        ((a ++ (newsMarker ++ (b ++ (newsMarker ++ c)))).drop i) = false) →
      (∀ i, i < b.length → newsMarker.isPrefixOf
        ((b ++ (newsMarker ++ c)).drop i) = false) →
      occursIn newsMarker c = false →
      occursIn timeMarker (a ++ newsReplacement newsItems now ++
        (b ++ (newsReplacement newsItems now ++ c))) = false →
      update_index_html newsItems now
          (some (a ++ (newsMarker ++ (b ++ (newsMarker ++ c))))) =
        some (a ++ newsReplacement newsItems now ++
          (b ++ (newsReplacement newsItems now ++ c)))) ∧
    (∀ a b c : Str,
      occursIn newsMarker (a ++ (timeMarker ++ (b ++ (timeMarker ++ c)))) = false →
      (∀ i, i < a.length → timeMarker.isPrefixOf
        ((a ++ (timeMarker ++ (b ++ (timeMarker ++ c)))).drop i) = false) →
      (∀ i, i < b.length → timeMarker.isPrefixOf
        ((b ++ (timeMarker ++ c)).drop i) = false) →
      occursIn timeMarker c = false →
      update_index_html newsItems now
          (some (a ++ (timeMarker ++ (b ++ (timeMarker ++ c))))) =
        some (a ++ formatUpdateTime now ++
          (b ++ (formatUpdateTime now ++ c)))) := by
  have hm : newsMarker ≠ ([] : Str) := by decide
  have ht : timeMarker ≠ ([] : Str) := by decide
  constructor
  · intro a b c h1 h2 h3 h4
    have hassoc : a ++ newsReplacement newsItems now ++
        (b ++ (newsReplacement newsItems now ++ c)) =
        a ++ (newsReplacement newsItems now ++
          (b ++ (newsReplacement newsItems now ++ c))) := by
      simp [List.append_assoc]
    have h4' : occursIn timeMarker (a ++ (newsReplacement newsItems now ++
        (b ++ (newsReplacement newsItems now ++ c)))) = false := by
      rw [← hassoc]
      exact h4
    rw [update_some,
      pyReplace_double newsMarker (newsReplacement newsItems now) a b c hm h1 h2 h3,
      hassoc, pyReplace_none _ _ _ h4']
  · intro a b c h0 h1 h2 h3
    rw [update_some, pyReplace_none _ _ _ h0,
      pyReplace_double timeMarker (formatUpdateTime now) a b c ht h1 h2 h3]

/-- C8, witness: both conjuncts evaluated on `X…Y…Z` around duplicated
markers. -/
theorem claim_C8_witness :
    update_index_html [c2ItemA] c2Time1
        (some ((("X").data) ++ (newsMarker ++ ((("Y").data) ++
          (newsMarker ++ (("Z").data)))))) =
      some ((("X").data) ++ newsReplacement [c2ItemA] c2Time1 ++
        ((("Y").data) ++ (newsReplacement [c2ItemA] c2Time1 ++ (("Z").data)))) ∧
    update_index_html [c2ItemA] c2Time1
        (some ((("X").data) ++ (timeMarker ++ ((("Y").data) ++
          (timeMarker ++ (("Z").data)))))) =
      some ((("X").data) ++ formatUpdateTime c2Time1 ++
        ((("Y").data) ++ (formatUpdateTime c2Time1 ++ (("Z").data)))) :=
  ⟨(claim_C8 [c2ItemA] c2Time1).1 (("X").data) (("Y").data) (("Z").data)
     (by decide) (by decide) (by decide) (by decide),
   (claim_C8 [c2ItemA] c2Time1).2 (("X").data) (("Y").data) (("Z").data)
     (by decide) (by decide) (by decide) (by decide)⟩

/-- C9.  When the target file does not exist, `update()` performs no
write (it returns `none`, modelling "no content written back"), raises
nothing, and the whole run — fetch followed by update — still returns a
value, i.e. terminates normally. -/
theorem claim_C9 (newsItems : List Str) (now : PyDateTime) :
    update_index_html newsItems now none = none ∧
    ∀ env : FetchEnv, mainRun env now none = none :=
  ⟨rfl, fun _ => rfl⟩

/-- C10.  An item whose `title` and `link` elements are present is
rendered even when their text is missing or empty: empty-text `title`
renders as the placeholder title, empty-text `link` as `#`, empty-text
`description` as the placeholder description, and the item is never
skipped in that case. -/
theorem claim_C10 (it : RssItem) (te le : XmlElem)
    (hte : it.title = some te) (hle : it.link = some le) :
    ((te.text = none ∨ te.text = some []) →
      processItem it = some (renderItemHtml (("無標題").data)
        (pyOr le.text (("#").data)) (stripTags (descText it.descr)))) ∧
    ((le.text = none ∨ le.text = some []) →
      processItem it = some (renderItemHtml (pyOr te.text (("無標題").data))
        (("#").data) (stripTags (descText it.descr)))) ∧
    (∀ de, it.descr = some de → (de.text = none ∨ de.text = some []) →
      processItem it = some (renderItemHtml (pyOr te.text (("無標題").data))
        (pyOr le.text (("#").data)) (("無描述").data))) ∧
    (processItem it).isSome = true := by
  have hstrip : stripTags (("無描述").data) = ("無描述").data := by decide
  refine ⟨?_, ?_, ?_, ?_⟩
  · rintro (h | h) <;> simp [processItem, hte, hle, pyOr, h]
  · rintro (h | h) <;> simp [processItem, hte, hle, pyOr, h]
  · rintro de hde (h | h) <;> simp [processItem, hte, hle, descText, hde, h, hstrip]
  · simp [processItem, hte, hle]

/-- C10, witness: `c10Item` has all three elements present with no (or
empty) text and is rendered with all three placeholders. -/
theorem claim_C10_witness :
    (processItem c10Item = some (renderItemHtml (("無標題").data)
      (pyOr (some ([] : Str)) (("#").data))
      (stripTags (descText (some (⟨none⟩ : XmlElem)))))) ∧
    (processItem c10Item).isSome = true :=
  ⟨(claim_C10 c10Item ⟨none⟩ ⟨some []⟩ rfl rfl).1 (Or.inl rfl),
   (claim_C10 c10Item ⟨none⟩ ⟨some []⟩ rfl rfl).2.2.2⟩

end FetchNews
